import Mathlib

/-!
Verification of the generated AI client module
(`shepstack/examples/support-ai/generated/ai_client.py`).

The development shallowly embeds the module: the in-memory response cache
`_ai_cache` becomes an association list threaded through the functions, the
network becomes an explicit oracle supplying one HTTP response per POST, and
every POST performed is recorded in a trace so that "number of network calls"
is a provable quantity.  `hashlib.md5(...).hexdigest()` is embedded as a full
executable MD5 over UTF-8 bytes, and Python's process-salted builtin `hash`
for strings is threaded as an explicit function parameter.
-/

set_option autoImplicit false

namespace AIClient

/-! ## MD5 (embedding of `hashlib.md5(...).hexdigest()` on UTF-8 bytes) -/

/-- Reduce modulo 2^32 (all MD5 words are 32-bit). -/
def mod32 (n : Nat) : Nat := n % 4294967296

/-- Left-rotate a 32-bit word by `s` places (0 ≤ s < 32). -/
def rotl (x s : Nat) : Nat := mod32 (x * 2 ^ s) + x / 2 ^ (32 - s)

/-- Bitwise complement of a 32-bit word. -/
def not32 (x : Nat) : Nat := 4294967295 - x

/-- The 64 MD5 sine-derived additive constants `T[i] = ⌊2^32·|sin(i+1)|⌋`. -/
def mdK : List Nat :=
  [0xd76aa478, 0xe8c7b756, 0x242070db, 0xc1bdceee,
   0xf57c0faf, 0x4787c62a, 0xa8304613, 0xfd469501,
   0x698098d8, 0x8b44f7af, 0xffff5bb1, 0x895cd7be,
   0x6b901122, 0xfd987193, 0xa679438e, 0x49b40821,
   0xf61e2562, 0xc040b340, 0x265e5a51, 0xe9b6c7aa,
   0xd62f105d, 0x02441453, 0xd8a1e681, 0xe7d3fbc8,
   0x21e1cde6, 0xc33707d6, 0xf4d50d87, 0x455a14ed,
   0xa9e3e905, 0xfcefa3f8, 0x676f02d9, 0x8d2a4c8a,
   0xfffa3942, 0x8771f681, 0x6d9d6122, 0xfde5380c,
   0xa4beea44, 0x4bdecfa9, 0xf6bb4b60, 0xbebfbc70,
   0x289b7ec6, 0xeaa127fa, 0xd4ef3085, 0x04881d05,
   0xd9d4d039, 0xe6db99e5, 0x1fa27cf8, 0xc4ac5665,
   0xf4292244, 0x432aff97, 0xab9423a7, 0xfc93a039,
   0x655b59c3, 0x8f0ccc92, 0xffeff47d, 0x85845dd1,
   0x6fa87e4f, 0xfe2ce6e0, 0xa3014314, 0x4e0811a1,
   0xf7537e82, 0xbd3af235, 0x2ad7d2bb, 0xeb86d391]

/-- The 64 MD5 per-round left-rotation amounts. -/
def mdS : List Nat :=
  [7, 12, 17, 22, 7, 12, 17, 22, 7, 12, 17, 22, 7, 12, 17, 22,
   5, 9, 14, 20, 5, 9, 14, 20, 5, 9, 14, 20, 5, 9, 14, 20,
   4, 11, 16, 23, 4, 11, 16, 23, 4, 11, 16, 23, 4, 11, 16, 23,
   6, 10, 15, 21, 6, 10, 15, 21, 6, 10, 15, 21, 6, 10, 15, 21]

/-- MD5 working state: the four 32-bit chaining words `(a, b, c, d)`. -/
structure MDState where
  a : Nat
  b : Nat
  c : Nat
  d : Nat
deriving DecidableEq, Repr

/-- One of the 64 MD5 rounds: `M` gives the sixteen 32-bit message words of
the current block, `i` the round index. -/
def mdRound (M : Nat → Nat) (i : Nat) (st : MDState) : MDState :=
  let f :=
    if i < 16 then (st.b &&& st.c) ||| (not32 st.b &&& st.d)
    else if i < 32 then (st.d &&& st.b) ||| (not32 st.d &&& st.c)
    else if i < 48 then st.b ^^^ st.c ^^^ st.d
    else st.c ^^^ (st.b ||| not32 st.d)
  let g :=
    if i < 16 then i
    else if i < 32 then (5 * i + 1) % 16
    else if i < 48 then (3 * i + 5) % 16
    else (7 * i) % 16
  let sum := mod32 (f + st.a + mdK.getD i 0 + M g)
  { a := st.d, b := mod32 (st.b + rotl sum (mdS.getD i 0)), c := st.b, d := st.c }

/-- Iterate `mdRound` for rounds `i, i+1, …` a given number of times. -/
def mdRounds (M : Nat → Nat) : Nat → Nat → MDState → MDState
  | _, 0, st => st
  | i, n + 1, st => mdRounds M (i + 1) n (mdRound M i st)

/-- Little-endian 32-bit word `j` of a 64-byte block. -/
def blockWord (block : List Nat) (j : Nat) : Nat :=
  block.getD (4 * j) 0 + 256 * block.getD (4 * j + 1) 0 +
    65536 * block.getD (4 * j + 2) 0 + 16777216 * block.getD (4 * j + 3) 0

/-- Process one 64-byte block: run the 64 rounds and add the result to the
chaining state modulo 2^32. -/
def mdBlock (st : MDState) (block : List Nat) : MDState :=
  let r := mdRounds (blockWord block) 0 64 st
  { a := mod32 (st.a + r.a), b := mod32 (st.b + r.b),
    c := mod32 (st.c + r.c), d := mod32 (st.d + r.d) }

/-- Process `n` consecutive 64-byte blocks of `bytes`. -/
def mdBlocks (st : MDState) (bytes : List Nat) : Nat → MDState
  | 0 => st
  | n + 1 => mdBlocks (mdBlock st (bytes.take 64)) (bytes.drop 64) n

/-- `count` little-endian bytes of `n`. -/
def leBytes (n count : Nat) : List Nat :=
  match count with
  | 0 => []
  | k + 1 => n % 256 :: leBytes (n / 256) k

/-- MD5 padding: append `0x80`, zero bytes to reach 56 mod 64, then the
original bit length as a 64-bit little-endian quantity. -/
def mdPad (msg : List Nat) : List Nat :=
  let zeros := (119 - msg.length % 64) % 64
  msg ++ 128 :: List.replicate zeros 0 ++ leBytes (8 * msg.length % 2 ^ 64) 8

/-- The MD5 initial chaining state. -/
def mdInit : MDState :=
  { a := 0x67452301, b := 0xefcdab89, c := 0x98badcfe, d := 0x10325476 }

/-- The 16 digest bytes of the MD5 of a byte string. -/
def md5Bytes (msg : List Nat) : List Nat :=
  let padded := mdPad msg
  let fin := mdBlocks mdInit padded (padded.length / 64)
  leBytes fin.a 4 ++ leBytes fin.b 4 ++ leBytes fin.c 4 ++ leBytes fin.d 4

/-- Lower-case hex digit for a nibble. -/
def hexDigit (n : Nat) : Char :=
  Char.ofNat (if n < 10 then 48 + n else 87 + n)

/-- Lower-case hex rendering of a byte list (high nibble first, as
`hexdigest()` renders it). -/
def hexString (bytes : List Nat) : String :=
  String.mk ((bytes.map fun b => [hexDigit (b / 16 % 16), hexDigit (b % 16)]).flatten)

/-- UTF-8 encoding of one character (embedding of `str.encode()`). -/
def utf8Char (c : Char) : List Nat :=
  let n := c.toNat
  if n < 128 then [n]
  else if n < 2048 then [192 + n / 64, 128 + n % 64]
  else if n < 65536 then [224 + n / 4096, 128 + n / 64 % 64, 128 + n % 64]
  else [240 + n / 262144, 128 + n / 4096 % 64, 128 + n / 64 % 64, 128 + n % 64]

/-- UTF-8 bytes of a string (embedding of `str.encode()`). -/
def strBytes (s : String) : List Nat := (s.data.map utf8Char).flatten

/-- Embedding of `hashlib.md5(s.encode()).hexdigest()`. -/
def md5Hex (s : String) : String := hexString (md5Bytes (strBytes s))

/-! ## Python string primitives used by the module -/

/-- The whitespace characters stripped by Python's `str.strip()`
(Unicode whitespace; this lists the full set CPython strips). -/
def isPySpace (c : Char) : Bool :=
  let n := c.toNat
  (9 ≤ n && n ≤ 13) || n == 32 || (28 ≤ n && n ≤ 31) || n == 133 || n == 160 ||
    n == 5760 || (8192 ≤ n && n ≤ 8202) || n == 8232 || n == 8233 ||
    n == 8239 || n == 8287 || n == 12288

/-- Embedding of Python's `str.strip()`: drop leading and trailing
whitespace. -/
def pyStrip (s : String) : String :=
  String.mk (((s.data.dropWhile isPySpace).reverse.dropWhile isPySpace).reverse)

/-- Embedding of Python's `str.lower()`, restricted to the ASCII range
(the module only ever compares the result against the ASCII literal
`"true"`). -/
def pyLower (s : String) : String :=
  String.mk (s.data.map fun c =>
    if 65 ≤ c.toNat && c.toNat ≤ 90 then Char.ofNat (c.toNat + 32) else c)

/-!
Python's builtin `hash` on `str` is salted with a per-process random seed
(`PYTHONHASHSEED`): it is a fixed function within one process but differs
between processes.  The embedding therefore threads the process's string-hash
function as an explicit parameter `pyHash : String → Int` wherever the source
calls `hash(...)`; `toString` of the result embeds the f-string rendering
`f"..._{hash(x)}"` of the hash value.
-/

/-! ## Data model: providers, responses, the cache and the network trace -/

/-- The two backends the module can dispatch to. -/
inductive ProviderKind where
  | claude
  | openai
deriving DecidableEq, Repr

/-- An HTTP response as the adapters consume it: the status code checked by
`raise_for_status()`, and the text the adapter extracts from the JSON body
(`data["content"][0]["text"]` resp. `data["choices"][0]["message"]["content"]`). -/
structure HttpResponse where
  status : Nat
  text : String
deriving DecidableEq, Repr

/-- One network call performed by an adapter: which provider endpoint was
POSTed to and the content of the single user message in the JSON body. -/
structure NetCall where
  provider : ProviderKind
  content : String
deriving DecidableEq, Repr

/-- The network oracle: response delivered to the `n`-th POST of the process
(counted from 0), given the provider endpoint and message content. -/
def NetEnv := Nat → ProviderKind → String → HttpResponse

/-- `raise_for_status()` succeeds exactly on a 2xx status. -/
def is2xx (status : Nat) : Prop := 200 ≤ status ∧ status ≤ 299

instance (status : Nat) : Decidable (is2xx status) := by
  unfold is2xx; infer_instance

/-- The only error kind the module surfaces: `httpx.HTTPStatusError` raised
by `raise_for_status()` on a non-2xx status. -/
inductive ProviderError where
  | httpStatus (status : Nat)
deriving DecidableEq, Repr

/-- The in-memory response cache `_ai_cache` (string keys to cached response
text); a dict is embedded as an association list where insertion conses and
lookup takes the first match. -/
abbrev Cache := List (String × String)

/-- The trace of network calls the process has performed, oldest first. -/
abbrev Trace := List NetCall

/-! ## Provider adapters (`_call_claude`, `_call_openai`) -/

/-- Embedding of `_call_claude`: build the message content
(`f"{prompt}\n\nContext: {context}" if context else prompt`), POST it to the
Claude endpoint (recorded in the trace, answered by the oracle), raise for
a non-2xx status, otherwise return the extracted text. -/
def call_claude (net : NetEnv) (tr : Trace) (prompt context : String) :
    Except ProviderError String × Trace :=
  let content := if context = "" then prompt else prompt ++ "\n\nContext: " ++ context
  let resp := net (List.length tr) .claude content
  let tr' : Trace := List.concat tr ⟨.claude, content⟩
  if is2xx resp.status then (.ok resp.text, tr')
  else (.error (.httpStatus resp.status), tr')

/-- Embedding of `_call_openai`: identical shape to `_call_claude` but
against the OpenAI endpoint. -/
def call_openai (net : NetEnv) (tr : Trace) (prompt context : String) :
    Except ProviderError String × Trace :=
  let content := if context = "" then prompt else prompt ++ "\n\nContext: " ++ context
  let resp := net (List.length tr) .openai content
  let tr' : Trace := List.concat tr ⟨.openai, content⟩
  if is2xx resp.status then (.ok resp.text, tr')
  else (.error (.httpStatus resp.status), tr')

/-! ## The dispatcher (`call_ai`) -/

/-- The cache id computed by `call_ai`:
`hashlib.md5(f"{cache_key}:{prompt}:{context}".encode()).hexdigest()`. -/
def cache_id_of (cache_key prompt context : String) : String :=
  md5Hex (cache_key ++ ":" ++ prompt ++ ":" ++ context)

/-- `if cache_key:` — the guard under which `call_ai` computes a cache id.
`None` and the empty string are falsy, so caching is active exactly when a
non-empty hint is supplied; this returns the cache id in that case. -/
def cacheIdFor (cache_key : Option String) (prompt context : String) : Option String :=
  match cache_key with
  | some ck => if ck = "" then none else some (cache_id_of ck prompt context)
  | none => none

/-- The cache consultation `call_ai` performs: when caching is active, look
the cache id up in `_ai_cache`; otherwise no lookup happens. -/
def cacheLookup (cache : Cache) (cache_key : Option String) (prompt context : String) :
    Option String :=
  match cacheIdFor cache_key prompt context with
  | some cid => List.lookup cid cache
  | none => none

/-- Embedding of `call_ai`.  `provider` is the current value of the
process-wide `AI_PROVIDER` configuration.  Returns the result (the response
text, or the propagated `ProviderError`), the cache after the call, and the
network trace after the call. -/
def call_ai (net : NetEnv) (provider : String) (cache : Cache) (tr : Trace)
    (prompt : String) (context : String) (cache_key : Option String) :
    Except ProviderError String × Cache × Trace :=
  -- Check cache first
  match cacheLookup cache cache_key prompt context with
  | some v => (.ok v, cache, tr)
  | none =>
    let (result, tr') :=
      if provider = "claude" then call_claude net tr prompt context
      else call_openai net tr prompt context
    -- Cache result (an exception from the adapter propagates and skips this)
    match result, cacheIdFor cache_key prompt context with
    | .error e, _ => (.error e, cache, tr')
    | .ok r, some cid => (.ok r, (cid, r) :: cache, tr')
    | .ok r, none => (.ok r, cache, tr')

/-! ## Generated callers

The field-derivation helpers serialize their `data`/`context` dict with
`json.dumps`; serialization itself is irrelevant to every claim, so the
helpers are embedded as functions of the already-serialized context string.
-/

/-- The prompt literal of `compute_message_sentiment`. -/
def sentimentPrompt : String :=
  "classify as positive, neutral, or negative\n\nRespond with only the result, no explanation."

/-- The cache hint `compute_message_sentiment` builds:
`f"Message_sentiment_{hash(context) if context else 'empty'}"`. -/
def sentiment_cache_key (pyHash : String → Int) (context : String) : String :=
  "Message_sentiment_" ++ (if context = "" then "empty" else toString (pyHash context))

/-- Embedding of `compute_message_sentiment`, with `context` the
`json.dumps` serialization of its `data` argument. -/
def compute_message_sentiment (pyHash : String → Int) (net : NetEnv) (provider : String)
    (cache : Cache) (tr : Trace) (context : String) :
    Except ProviderError String × Cache × Trace :=
  call_ai net provider cache tr sentimentPrompt context (some (sentiment_cache_key pyHash context))

/-- The prompt literal of `check_rule_1` — note the un-interpolated
placeholder token `{message_content}`. -/
def rule_1_prompt : String :=
  "Analyze this text and determine if it: sounds frustrated or angry\n\nText: {message_content}\n\nRespond with only \"true\" or \"false\"."

/-- The prompt literal of `check_rule_2` — note the un-interpolated
placeholder token `{message_content}`. -/
def rule_2_prompt : String :=
  "Analyze this text and determine if it: looks like spam or marketing\n\nText: {message_content}\n\nRespond with only \"true\" or \"false\"."

/-- Embedding of `check_rule_1`: call the dispatcher with the fixed rule
prompt, no context, and the hint `f"rule_1_{hash(message_content)}"`, then
compare the trimmed lowercased response against `"true"`. -/
def check_rule_1 (pyHash : String → Int) (net : NetEnv) (provider : String)
    (cache : Cache) (tr : Trace) (message_content : String) :
    Except ProviderError Bool × Cache × Trace :=
  let (result, cache', tr') := call_ai net provider cache tr rule_1_prompt ""
    (some ("rule_1_" ++ toString (pyHash message_content)))
  match result with
  | .error e => (.error e, cache', tr')
  | .ok r => (.ok (pyLower (pyStrip r) == "true"), cache', tr')

/-- Embedding of `check_rule_2`: same shape as `check_rule_1` with its own
prompt and hint prefix. -/
def check_rule_2 (pyHash : String → Int) (net : NetEnv) (provider : String)
    (cache : Cache) (tr : Trace) (message_content : String) :
    Except ProviderError Bool × Cache × Trace :=
  let (result, cache', tr') := call_ai net provider cache tr rule_2_prompt ""
    (some ("rule_2_" ++ toString (pyHash message_content)))
  match result with
  | .error e => (.error e, cache', tr')
  | .ok r => (.ok (pyLower (pyStrip r) == "true"), cache', tr')

/-! ## Behaviour lemmas about the dispatcher -/

/-- On a cache hit the dispatcher returns the stored text and touches
neither the cache nor the network. -/
theorem call_ai_hit (net : NetEnv) (provider : String) (cache : Cache) (tr : Trace)
    (prompt context : String) (ck : Option String) (v : String)
    (h : cacheLookup cache ck prompt context = some v) :
    call_ai net provider cache tr prompt context ck = (.ok v, cache, tr) := by
  simp [call_ai, h]

/-- On a cache miss with a non-empty hint and a 2xx response from whichever
endpoint is consulted, the dispatcher performs exactly one network call,
returns the extracted text and conses the `(cache id, text)` pair onto the
cache. -/
theorem call_ai_miss_ok (net : NetEnv) (provider : String) (cache : Cache) (tr : Trace)
    (prompt context ck : String) (hck : ck ≠ "")
    (hmiss : cacheLookup cache (some ck) prompt context = none)
    (hok : ∀ k c, is2xx ((net (List.length tr) k c).status)) :
    ∃ t : String,
      call_ai net provider cache tr prompt context (some ck) =
        (.ok t, (cache_id_of ck prompt context, t) :: cache,
          List.concat tr
            ⟨if provider = "claude" then .claude else .openai,
             if context = "" then prompt else prompt ++ "\n\nContext: " ++ context⟩) := by
  by_cases hp : provider = "claude" <;>
    simp [call_ai, hmiss, call_claude, call_openai, cacheIdFor, hck, hp,
      if_pos (hok _ _)]

/-- A fresh entry written by the dispatcher is found again by the lookup for
the same `(cache_hint, prompt, context)` triple. -/
theorem cacheLookup_cons_self (cache : Cache) (prompt context ck t : String)
    (hck : ck ≠ "") :
    cacheLookup ((cache_id_of ck prompt context, t) :: cache) (some ck) prompt context
      = some t := by
  simp [cacheLookup, cacheIdFor, hck, List.lookup]

/-- `_call_claude` always records exactly one POST to the Claude endpoint,
whose message content is the shaped prompt/context text. -/
theorem call_claude_trace (net : NetEnv) (tr : Trace) (prompt context : String) :
    (call_claude net tr prompt context).2
      = List.concat tr
          ⟨.claude, if context = "" then prompt else prompt ++ "\n\nContext: " ++ context⟩ := by
  simp only [call_claude]
  split <;> split <;> rfl

/-- `_call_openai` always records exactly one POST to the OpenAI endpoint,
whose message content is the shaped prompt/context text. -/
theorem call_openai_trace (net : NetEnv) (tr : Trace) (prompt context : String) :
    (call_openai net tr prompt context).2
      = List.concat tr
          ⟨.openai, if context = "" then prompt else prompt ++ "\n\nContext: " ++ context⟩ := by
  simp only [call_openai]
  split <;> split <;> rfl

/-- On a cache miss (or hint-less call) the dispatcher performs exactly one
network call, to the adapter selected by the provider configuration string. -/
theorem call_ai_miss_trace (net : NetEnv) (provider : String) (cache : Cache)
    (tr : Trace) (prompt context : String) (ck : Option String)
    (hmiss : cacheLookup cache ck prompt context = none) :
    (call_ai net provider cache tr prompt context ck).2.2
      = List.concat tr
          ⟨if provider = "claude" then .claude else .openai,
           if context = "" then prompt else prompt ++ "\n\nContext: " ++ context⟩ := by
  by_cases hp : provider = "claude" <;> simp only [call_ai, hmiss, hp, if_true, if_false]
  · rcases hq : call_claude net tr prompt context with ⟨res, tr2⟩
    have h2 : tr2 = (call_claude net tr prompt context).2 := by rw [hq]
    rw [call_claude_trace] at h2
    cases res <;> rcases hcid : cacheIdFor ck prompt context with _ | cid <;>
      simp [hq, h2, hp]
  · rcases hq : call_openai net tr prompt context with ⟨res, tr2⟩
    have h2 : tr2 = (call_openai net tr prompt context).2 := by rw [hq]
    rw [call_openai_trace] at h2
    cases res <;> rcases hcid : cacheIdFor ck prompt context with _ | cid <;>
      simp [hq, h2, hp]

/-- On a cache miss with a 2xx answer, the dispatcher returns exactly the text
the consulted endpoint produced for the shaped message. -/
theorem call_ai_miss_result (net : NetEnv) (provider : String) (cache : Cache)
    (tr : Trace) (prompt context : String) (ck : Option String)
    (hmiss : cacheLookup cache ck prompt context = none)
    (hok : ∀ k c, is2xx ((net (List.length tr) k c).status)) :
    (call_ai net provider cache tr prompt context ck).1
      = .ok ((net (List.length tr) (if provider = "claude" then .claude else .openai)
          (if context = "" then prompt else prompt ++ "\n\nContext: " ++ context)).text) := by
  by_cases hp : provider = "claude" <;>
    rcases hcid : cacheIdFor ck prompt context with _ | cid <;>
      simp [call_ai, hmiss, hp, hcid, call_claude, call_openai, if_pos (hok _ _)]

/-- A string with the non-empty literal prefixes used for the rule hints is
never empty, so `if cache_key:` is true for every rule-helper hint. -/
theorem append_ne_empty_of_ne (a s : String) (ha : a.length ≠ 0) : a ++ s ≠ "" := by
  intro h
  have hl := congrArg String.length h
  rw [String.length_append] at hl
  have h0 : String.length "" = 0 := rfl
  omega

/-! ## Claim theorems -/

/-- **C1** Cache idempotence: for two invocations of `call_ai` with identical
`(cache_hint, prompt, context)` where the hint is present (non-empty) and the
key is not yet cached, and the provider answers 2xx: the first invocation
performs the single network call of the pair, returns a text, and the second
invocation performs no network call, changes nothing, and returns the same
text. -/
theorem aiC1_cache_idempotence (net : NetEnv) (provider : String) (cache : Cache)
    (tr : Trace) (prompt context ck : String) (hck : ck ≠ "")
    (hmiss : cacheLookup cache (some ck) prompt context = none)
    (hok : ∀ k c, is2xx ((net (List.length tr) k c).status)) :
    (∃ s, (call_ai net provider cache tr prompt context (some ck)).1 = Except.ok s) ∧
    List.length (call_ai net provider cache tr prompt context (some ck)).2.2
      = List.length tr + 1 ∧
    call_ai net provider (call_ai net provider cache tr prompt context (some ck)).2.1
        (call_ai net provider cache tr prompt context (some ck)).2.2 prompt context (some ck)
      = ((call_ai net provider cache tr prompt context (some ck)).1,
         (call_ai net provider cache tr prompt context (some ck)).2.1,
         (call_ai net provider cache tr prompt context (some ck)).2.2) := by
  obtain ⟨t, h1⟩ := call_ai_miss_ok net provider cache tr prompt context ck hck hmiss hok
  rw [h1]
  refine ⟨⟨t, rfl⟩, by simp, ?_⟩
  exact call_ai_hit net provider _ _ prompt context (some ck) t
    (cacheLookup_cons_self cache prompt context ck t hck)

/-- Witness for C1: provider `"claude"`, empty cache, a network always
answering `200/"positive"`, prompt `"p"`, context `"c"`, hint `"h"`. -/
theorem aiC1_cache_idempotence_witness :
    (∃ s, (call_ai (fun _ _ _ => ⟨200, "positive"⟩) "claude" [] [] "p" "c" (some "h")).1
        = Except.ok s) ∧
    List.length (call_ai (fun _ _ _ => ⟨200, "positive"⟩) "claude" [] [] "p" "c"
        (some "h")).2.2 = List.length ([] : Trace) + 1 ∧
    call_ai (fun _ _ _ => ⟨200, "positive"⟩) "claude"
        (call_ai (fun _ _ _ => ⟨200, "positive"⟩) "claude" [] [] "p" "c" (some "h")).2.1
        (call_ai (fun _ _ _ => ⟨200, "positive"⟩) "claude" [] [] "p" "c" (some "h")).2.2
        "p" "c" (some "h")
      = ((call_ai (fun _ _ _ => ⟨200, "positive"⟩) "claude" [] [] "p" "c" (some "h")).1,
         (call_ai (fun _ _ _ => ⟨200, "positive"⟩) "claude" [] [] "p" "c" (some "h")).2.1,
         (call_ai (fun _ _ _ => ⟨200, "positive"⟩) "claude" [] [] "p" "c" (some "h")).2.2) :=
  aiC1_cache_idempotence (fun _ _ _ => ⟨200, "positive"⟩) "claude" [] [] "p" "c" "h"
    (by decide) rfl (fun _ _ => show is2xx 200 by decide)

/-- **C2** No caching without a hint: when `cache_hint` is `None` or the empty
string, `call_ai` leaves the cache exactly as it was, and its result and its
network activity are independent of the cache contents (it never consults the
cache). -/
theorem aiC2_no_caching_without_hint (net : NetEnv) (provider : String)
    (cache cache' : Cache) (tr : Trace) (prompt context : String) (ck : Option String)
    (h : ck = none ∨ ck = some "") :
    (call_ai net provider cache tr prompt context ck).2.1 = cache ∧
    (call_ai net provider cache tr prompt context ck).1
      = (call_ai net provider cache' tr prompt context ck).1 ∧
    (call_ai net provider cache tr prompt context ck).2.2
      = (call_ai net provider cache' tr prompt context ck).2.2 := by
  have hcid : cacheIdFor ck prompt context = none := by
    rcases h with h | h <;> subst h <;> simp [cacheIdFor]
  have hlk : ∀ c : Cache, cacheLookup c ck prompt context = none := by
    intro c; simp [cacheLookup, hcid]
  simp only [call_ai, hlk, hcid]
  rcases hq : (if provider = "claude" then call_claude net tr prompt context
      else call_openai net tr prompt context) with ⟨res, tr2⟩
  cases res <;> simp

/-- Witness for C2 at `cache_hint = some ""` with a non-trivial starting
cache. -/
theorem aiC2_no_caching_without_hint_witness :
    (call_ai (fun _ _ _ => ⟨200, "r"⟩) "claude" [("k", "v")] [] "p" "c" (some "")).2.1
      = [("k", "v")] ∧
    (call_ai (fun _ _ _ => ⟨200, "r"⟩) "claude" [("k", "v")] [] "p" "c" (some "")).1
      = (call_ai (fun _ _ _ => ⟨200, "r"⟩) "claude" [] [] "p" "c" (some "")).1 ∧
    (call_ai (fun _ _ _ => ⟨200, "r"⟩) "claude" [("k", "v")] [] "p" "c" (some "")).2.2
      = (call_ai (fun _ _ _ => ⟨200, "r"⟩) "claude" [] [] "p" "c" (some "")).2.2 :=
  aiC2_no_caching_without_hint (fun _ _ _ => ⟨200, "r"⟩) "claude" [("k", "v")] [] []
    "p" "c" (some "") (Or.inr rfl)

/-- **C3** Payload shaping: for both provider adapters, the message content
POSTed to the provider is `prompt ++ "\n\nContext: " ++ context` when the
context is non-empty, and the prompt verbatim when the context is empty. -/
theorem aiC3_payload_shaping (net : NetEnv) (tr : Trace) (prompt context : String) :
    (context ≠ "" →
      (call_claude net tr prompt context).2
          = List.concat tr ⟨.claude, prompt ++ "\n\nContext: " ++ context⟩ ∧
      (call_openai net tr prompt context).2
          = List.concat tr ⟨.openai, prompt ++ "\n\nContext: " ++ context⟩) ∧
    (context = "" →
      (call_claude net tr prompt context).2 = List.concat tr ⟨.claude, prompt⟩ ∧
      (call_openai net tr prompt context).2 = List.concat tr ⟨.openai, prompt⟩) := by
  constructor <;> intro h <;>
    simp [call_claude_trace, call_openai_trace, h]

/-- Witness for C3 at context `"c"` (non-empty case) and `""` (empty case). -/
theorem aiC3_payload_shaping_witness :
    ((call_claude (fun _ _ _ => ⟨200, "r"⟩) [] "p" "c").2
        = List.concat [] ⟨.claude, "p" ++ "\n\nContext: " ++ "c"⟩ ∧
     (call_openai (fun _ _ _ => ⟨200, "r"⟩) [] "p" "c").2
        = List.concat [] ⟨.openai, "p" ++ "\n\nContext: " ++ "c"⟩) ∧
    ((call_claude (fun _ _ _ => ⟨200, "r"⟩) [] "p" "").2
        = List.concat [] ⟨.claude, "p"⟩ ∧
     (call_openai (fun _ _ _ => ⟨200, "r"⟩) [] "p" "").2
        = List.concat [] ⟨.openai, "p"⟩) :=
  ⟨(aiC3_payload_shaping (fun _ _ _ => ⟨200, "r"⟩) [] "p" "c").1 (by decide),
   (aiC3_payload_shaping (fun _ _ _ => ⟨200, "r"⟩) [] "p" "").2 rfl⟩

/-- **C4** Error propagation with cache atomicity: with a present hint whose
key is uncached, if the provider answers a non-2xx status `s`, `call_ai`
fails with exactly `ProviderError.httpStatus s` (the adapter's error,
unmodified) and the cache is left exactly as it was. -/
theorem aiC4_error_propagation (net : NetEnv) (provider : String) (cache : Cache)
    (tr : Trace) (prompt context ck : String) (s : Nat) (hck : ck ≠ "")
    (hmiss : cacheLookup cache (some ck) prompt context = none)
    (hs : ∀ k c, (net (List.length tr) k c).status = s) (hbad : ¬ is2xx s) :
    (call_ai net provider cache tr prompt context (some ck)).1
      = .error (.httpStatus s) ∧
    (call_ai net provider cache tr prompt context (some ck)).2.1 = cache := by
  by_cases hp : provider = "claude" <;>
    simp [call_ai, hmiss, hp, call_claude, call_openai, hs, if_neg hbad,
      cacheIdFor, hck]

/-- Witness for C4: a network answering `500` leaves the error visible and an
empty cache empty. -/
theorem aiC4_error_propagation_witness :
    (call_ai (fun _ _ _ => ⟨500, "oops"⟩) "claude" [] [] "p" "c" (some "h")).1
      = .error (.httpStatus 500) ∧
    (call_ai (fun _ _ _ => ⟨500, "oops"⟩) "claude" [] [] "p" "c" (some "h")).2.1
      = [] :=
  aiC4_error_propagation (fun _ _ _ => ⟨500, "oops"⟩) "claude" [] [] "p" "c" "h" 500
    (by decide) rfl (fun _ _ => rfl) (by decide)

/-- **C7** Provider selection: on a cache miss or hint-less call, `call_ai`
invokes exactly one adapter — exactly one POST is appended to the trace — and
that adapter is Claude exactly when the provider configuration string equals
`"claude"`, OpenAI otherwise. -/
theorem aiC7_provider_selection (net : NetEnv) (provider : String) (cache : Cache)
    (tr : Trace) (prompt context : String) (ck : Option String)
    (hmiss : cacheLookup cache ck prompt context = none) :
    ∃ content,
      (call_ai net provider cache tr prompt context ck).2.2
        = List.concat tr
            ⟨if provider = "claude" then .claude else .openai, content⟩ :=
  ⟨_, call_ai_miss_trace net provider cache tr prompt context ck hmiss⟩

/-- Witness for C7 with configuration `"openai"` and no hint. -/
theorem aiC7_provider_selection_witness :
    ∃ content,
      (call_ai (fun _ _ _ => ⟨200, "r"⟩) "openai" [] [] "p" "c" none).2.2
        = List.concat []
            ⟨if "openai" = "claude" then .claude else .openai, content⟩ :=
  aiC7_provider_selection (fun _ _ _ => ⟨200, "r"⟩) "openai" [] [] "p" "c" none rfl

/-- **C10** The cache id is derived from `(cache_hint, prompt, context)` only,
never from the provider: after a first successful invocation under provider
configuration `p1`, a second invocation with the identical triple under any
configuration `p2` is a cache hit — it returns the first invocation's text
and performs no network call, even though `p2` may select the other
provider. -/
theorem aiC10_provider_change_cache_hit (net : NetEnv) (p1 p2 : String)
    (cache : Cache) (tr : Trace) (prompt context ck : String) (hck : ck ≠ "")
    (hmiss : cacheLookup cache (some ck) prompt context = none)
    (hok : ∀ k c, is2xx ((net (List.length tr) k c).status)) :
    call_ai net p2 (call_ai net p1 cache tr prompt context (some ck)).2.1
        (call_ai net p1 cache tr prompt context (some ck)).2.2 prompt context (some ck)
      = ((call_ai net p1 cache tr prompt context (some ck)).1,
         (call_ai net p1 cache tr prompt context (some ck)).2.1,
         (call_ai net p1 cache tr prompt context (some ck)).2.2) := by
  obtain ⟨t, h1⟩ := call_ai_miss_ok net p1 cache tr prompt context ck hck hmiss hok
  rw [h1]
  exact call_ai_hit net p2 _ _ prompt context (some ck) t
    (cacheLookup_cons_self cache prompt context ck t hck)

/-- Witness for C10: first call under `"claude"`, second under `"openai"`. -/
theorem aiC10_provider_change_cache_hit_witness :
    call_ai (fun _ _ _ => ⟨200, "r"⟩) "openai"
        (call_ai (fun _ _ _ => ⟨200, "r"⟩) "claude" [] [] "p" "c" (some "h")).2.1
        (call_ai (fun _ _ _ => ⟨200, "r"⟩) "claude" [] [] "p" "c" (some "h")).2.2
        "p" "c" (some "h")
      = ((call_ai (fun _ _ _ => ⟨200, "r"⟩) "claude" [] [] "p" "c" (some "h")).1,
         (call_ai (fun _ _ _ => ⟨200, "r"⟩) "claude" [] [] "p" "c" (some "h")).2.1,
         (call_ai (fun _ _ _ => ⟨200, "r"⟩) "claude" [] [] "p" "c" (some "h")).2.2) :=
  aiC10_provider_change_cache_hit (fun _ _ _ => ⟨200, "r"⟩) "claude" "openai" [] []
    "p" "c" "h" (by decide) rfl (fun _ _ => show is2xx 200 by decide)

set_option maxRecDepth 4000000 in
/-- **C5** (the code violates the reproducibility requirement): the cache
hints the generated helpers build call the process-salted `hash`, so they
depend on process-local state.  With `h0` and `h1` standing for the string
hash functions of two different interpreter processes, the hint
`compute_message_sentiment` derives for the same serialized data differs
between the processes, and consequently so does the cache entry the two
processes write for the identical request.  (The dispatcher-level
`cache_id_of` takes no such parameter: only the helper hints are at fault.) -/
theorem aiC5_helper_hint_process_dependence :
    sentiment_cache_key (fun _ => 0) "\x7b\"body\": \"hi\"\x7d"
        ≠ sentiment_cache_key (fun _ => 1) "\x7b\"body\": \"hi\"\x7d" ∧
    (compute_message_sentiment (fun _ => 0) (fun _ _ _ => ⟨200, "positive"⟩)
          "claude" [] [] "\x7b\"body\": \"hi\"\x7d").2.1
      ≠ (compute_message_sentiment (fun _ => 1) (fun _ _ _ => ⟨200, "positive"⟩)
          "claude" [] [] "\x7b\"body\": \"hi\"\x7d").2.1 := by
  constructor
  · decide
  · decide

set_option maxRecDepth 4000000 in
/-- **C6** The cache id combines all three inputs: two requests agreeing on
hint and prompt but with distinct contexts always feed distinct strings to
MD5, and at sample inputs varying any single one of the three coordinates
changes the derived id. -/
theorem aiC6_cache_key_combines_inputs :
    (∀ hint prompt c1 c2 : String, c1 ≠ c2 →
        hint ++ ":" ++ prompt ++ ":" ++ c1 ≠ hint ++ ":" ++ prompt ++ ":" ++ c2) ∧
    cache_id_of "h" "p" "a" ≠ cache_id_of "h" "p" "b" ∧
    cache_id_of "h1" "p" "c" ≠ cache_id_of "h2" "p" "c" ∧
    cache_id_of "h" "p1" "c" ≠ cache_id_of "h" "p2" "c" := by
  refine ⟨?_, by decide, by decide, by decide⟩
  intro hint prompt c1 c2 hne heq
  apply hne
  have h2 := congrArg String.data heq
  simp only [String.data_append, List.append_assoc] at h2
  exact String.ext
    (List.append_cancel_left (List.append_cancel_left
      (List.append_cancel_left (List.append_cancel_left h2))))

/-- Witness for C6: the universally quantified conjunct applied at contexts
`"a" ≠ "b"`. -/
theorem aiC6_cache_key_combines_inputs_witness :
    "h" ++ ":" ++ "p" ++ ":" ++ "a" ≠ "h" ++ ":" ++ "p" ++ ":" ++ "b" :=
  aiC6_cache_key_combines_inputs.1 "h" "p" "a" "b" (by decide)

/-- **C8** Rule-helper boolean mapping: when the network answers 2xx with
text `t` (and the rule's key is uncached), `check_rule_1` and `check_rule_2`
return `true` exactly when `t`, stripped of surrounding whitespace and
lowercased, equals `"true"`. -/
theorem aiC8_rule_boolean_mapping (pyHash : String → Int) (provider : String)
    (cache : Cache) (tr : Trace) (msg t : String)
    (hmiss1 : cacheLookup cache (some ("rule_1_" ++ toString (pyHash msg)))
        rule_1_prompt "" = none)
    (hmiss2 : cacheLookup cache (some ("rule_2_" ++ toString (pyHash msg)))
        rule_2_prompt "" = none) :
    ((check_rule_1 pyHash (fun _ _ _ => ⟨200, t⟩) provider cache tr msg).1
        = .ok true ↔ pyLower (pyStrip t) = "true") ∧
    ((check_rule_2 pyHash (fun _ _ _ => ⟨200, t⟩) provider cache tr msg).1
        = .ok true ↔ pyLower (pyStrip t) = "true") := by
  have hok : ∀ k c, is2xx (((fun (_ : Nat) (_ : ProviderKind) (_ : String) =>
      (⟨200, t⟩ : HttpResponse)) (List.length tr) k c).status) :=
    fun _ _ => show is2xx 200 by decide
  have h1 := call_ai_miss_result (fun _ _ _ => ⟨200, t⟩) provider cache tr
    rule_1_prompt "" (some ("rule_1_" ++ toString (pyHash msg))) hmiss1 hok
  have h2 := call_ai_miss_result (fun _ _ _ => ⟨200, t⟩) provider cache tr
    rule_2_prompt "" (some ("rule_2_" ++ toString (pyHash msg))) hmiss2 hok
  constructor
  · rcases hq : call_ai (fun _ _ _ => ⟨200, t⟩) provider cache tr rule_1_prompt ""
        (some ("rule_1_" ++ toString (pyHash msg))) with ⟨res, cc, tt⟩
    rw [hq] at h1
    simp only [check_rule_1, hq]
    simp only at h1
    subst h1
    simp [beq_iff_eq]
  · rcases hq : call_ai (fun _ _ _ => ⟨200, t⟩) provider cache tr rule_2_prompt ""
        (some ("rule_2_" ++ toString (pyHash msg))) with ⟨res, cc, tt⟩
    rw [hq] at h2
    simp only [check_rule_2, hq]
    simp only at h2
    subst h2
    simp [beq_iff_eq]

/-- Witness for C8: response text `" True "` makes `check_rule_1` return
`true`, and `"maybe"` makes `check_rule_2` return `false`. -/
theorem aiC8_rule_boolean_mapping_witness :
    (check_rule_1 (fun _ => 0) (fun _ _ _ => ⟨200, " True "⟩) "claude" [] [] "m").1
        = .ok true ∧
    (check_rule_2 (fun _ => 0) (fun _ _ _ => ⟨200, "maybe"⟩) "claude" [] [] "m").1
        ≠ .ok true :=
  ⟨(aiC8_rule_boolean_mapping (fun _ => 0) "claude" [] [] "m" " True " rfl rfl).1.mpr
      (by decide),
   fun h =>
     absurd ((aiC8_rule_boolean_mapping (fun _ => 0) "claude" [] [] "m" "maybe"
       rfl rfl).2.mp h) (by decide)⟩

/-- **C9** Unsubstituted placeholder noninterference: the prompt POSTed by
`check_rule_1` / `check_rule_2` on a miss is the fixed template literal —
containing the never-interpolated token `"{message_content}"` — whatever the
`message_content` argument is; the argument reaches only the cache hint. -/
theorem aiC9_placeholder_noninterference (pyHash : String → Int) (net : NetEnv)
    (provider : String) (cache : Cache) (tr : Trace) (msg : String)
    (hmiss1 : cacheLookup cache (some ("rule_1_" ++ toString (pyHash msg)))
        rule_1_prompt "" = none)
    (hmiss2 : cacheLookup cache (some ("rule_2_" ++ toString (pyHash msg)))
        rule_2_prompt "" = none) :
    (check_rule_1 pyHash net provider cache tr msg).2.2
        = List.concat tr
            ⟨if provider = "claude" then .claude else .openai, rule_1_prompt⟩ ∧
    (check_rule_2 pyHash net provider cache tr msg).2.2
        = List.concat tr
            ⟨if provider = "claude" then .claude else .openai, rule_2_prompt⟩ ∧
    rule_1_prompt
      = "Analyze this text and determine if it: sounds frustrated or angry\n\nText: "
          ++ "{message_content}" ++ "\n\nRespond with only \"true\" or \"false\"." ∧
    rule_2_prompt
      = "Analyze this text and determine if it: looks like spam or marketing\n\nText: "
          ++ "{message_content}" ++ "\n\nRespond with only \"true\" or \"false\"." := by
  have h1 := call_ai_miss_trace net provider cache tr rule_1_prompt ""
    (some ("rule_1_" ++ toString (pyHash msg))) hmiss1
  have h2 := call_ai_miss_trace net provider cache tr rule_2_prompt ""
    (some ("rule_2_" ++ toString (pyHash msg))) hmiss2
  refine ⟨?_, ?_, by decide, by decide⟩
  · rcases hq : call_ai net provider cache tr rule_1_prompt ""
        (some ("rule_1_" ++ toString (pyHash msg))) with ⟨res, cc, tt⟩
    rw [hq] at h1
    simp only at h1
    cases res <;> simp [check_rule_1, hq, h1]
  · rcases hq : call_ai net provider cache tr rule_2_prompt ""
        (some ("rule_2_" ++ toString (pyHash msg))) with ⟨res, cc, tt⟩
    rw [hq] at h2
    simp only at h2
    cases res <;> simp [check_rule_2, hq, h2]

/-- Witness for C9: two different messages lead to the identical POSTed
prompt, which is the placeholder template. -/
theorem aiC9_placeholder_noninterference_witness :
    (check_rule_1 (fun _ => 0) (fun _ _ _ => ⟨200, "r"⟩) "claude" [] [] "hello").2.2
        = List.concat []
            ⟨if "claude" = "claude" then .claude else .openai, rule_1_prompt⟩ ∧
    (check_rule_2 (fun _ => 0) (fun _ _ _ => ⟨200, "r"⟩) "claude" [] [] "hello").2.2
        = List.concat []
            ⟨if "claude" = "claude" then .claude else .openai, rule_2_prompt⟩ ∧
    rule_1_prompt
      = "Analyze this text and determine if it: sounds frustrated or angry\n\nText: "
          ++ "{message_content}" ++ "\n\nRespond with only \"true\" or \"false\"." ∧
    rule_2_prompt
      = "Analyze this text and determine if it: looks like spam or marketing\n\nText: "
          ++ "{message_content}" ++ "\n\nRespond with only \"true\" or \"false\"." :=
  aiC9_placeholder_noninterference (fun _ => 0) (fun _ _ _ => ⟨200, "r"⟩) "claude"
    [] [] "hello" rfl rfl

end AIClient
